import Mathlib

/-!
Shallow embedding of `app/database/migrations/048_fix_ssh_connection_cascade.py`.

The migration rewrites the `ssh_connections` table of a SQLite database so
that the `ssh_key_id` foreign key uses `ON DELETE SET NULL` instead of
`ON DELETE CASCADE`.  We model the SQLite database state as an association
list from table names to tables; each executed SQL statement of the source
becomes a state operation, and the exact DDL strings the source builds are
reproduced as Lean strings.
-/

set_option autoImplicit false

namespace Migration048

/-- One row of `PRAGMA table_info(...)`: `(cid, name, type, notnull, dflt_value, pk)`.
The `cid` position is given by the list position. -/
structure Column where
  name : String
  type : String
  notnull : Bool
  dflt_value : Option String
  pk : Bool
deriving DecidableEq

/-- One row of `PRAGMA foreign_key_list(...)`:
`(id, seq, table, from, to, on_update, on_delete, match)`; we keep the fields
the program reads or reproduces. -/
structure ForeignKey where
  table : String
  from_col : String
  to_col : String
  on_update : String
  on_delete : String
deriving DecidableEq

/-- A table row: one value (possibly NULL) per column, in column order. -/
abbrev Row := List (Option String)

/-- A table: declared columns in order, foreign-key constraints, rows, index names. -/
structure Table where
  columns : List Column
  fks : List ForeignKey
  rows : List Row
  indexes : List String
deriving DecidableEq

/-- Database state: association list from table name to table. -/
abbrev DB := List (String × Table)

/-- First table registered under a name (like SQLite's catalog lookup). -/
def findTable (n : String) : DB → Option Table
  | [] => none
  | (m, t) :: rest => if m = n then some t else findTable n rest

/-- Remove every entry registered under a name. -/
def dropKey (n : String) : DB → DB
  | [] => []
  | (m, t) :: rest => if m = n then dropKey n rest else (m, t) :: dropKey n rest

/-- Register a table under a name (replacing any previous entry). -/
def setTable (n : String) (t : Table) (db : DB) : DB :=
  dropKey n db ++ [(n, t)]

/-- `DROP TABLE IF EXISTS n`: never fails; removes the table when present. -/
def dropIfExists (n : String) (db : DB) : DB := dropKey n db

/-- `DROP TABLE n`: fails when the table does not exist. -/
def dropTable (n : String) (db : DB) : Option DB :=
  match findTable n db with
  | some _ => some (dropKey n db)
  | none => none

/-- `ALTER TABLE old RENAME TO new`: fails when `old` is absent or `new` exists. -/
def renameTable (old new : String) (db : DB) : Option DB :=
  match findTable old db, findTable new db with
  | some t, none => some (setTable new t (dropKey old db))
  | some _, some _ => none
  | none, _ => none

/-- Structural content of one emitted column clause: for a `pk` column the
source emits only `name type PRIMARY KEY`, dropping any `NOT NULL` and
`DEFAULT` clause; other columns are reproduced unchanged. -/
def newColumn (c : Column) : Column :=
  if c.pk then { c with notnull := false, dflt_value := none } else c

/-- The foreign key the synthesized DDL appends:
`FOREIGN KEY (ssh_key_id) REFERENCES ssh_keys(id) ON DELETE SET NULL`
(no `ON UPDATE` clause, so SQLite's default `NO ACTION`). -/
def sshFkNew : ForeignKey :=
  { table := "ssh_keys", from_col := "ssh_key_id", to_col := "id",
    on_update := "NO ACTION", on_delete := "SET NULL" }

/-- `CREATE TABLE ssh_connections_new (...)` with the synthesized column
clauses and the single appended foreign key.  Fails when the table already
exists, or when the foreign key's from-column is not among the declared
columns (SQLite: unknown column in foreign key definition; this also covers
the empty column list, which is a syntax error). -/
def createScratch (cols : List Column) (db : DB) : Option DB :=
  match findTable "ssh_connections_new" db with
  | some _ => none
  | none =>
    if "ssh_key_id" ∈ cols.map Column.name then
      some (setTable "ssh_connections_new"
        { columns := cols.map newColumn, fks := [sshFkNew], rows := [], indexes := [] } db)
    else none

/-- `INSERT INTO ssh_connections_new (names) SELECT names FROM ssh_connections`.
We model the case the program exercises: the explicit name list equals the
full column list of both tables in order, so rows are copied verbatim; any
other shape fails. -/
def copyRows (names : List String) (db : DB) : Option DB :=
  match findTable "ssh_connections" db, findTable "ssh_connections_new" db with
  | some src, some dst =>
    if names = src.columns.map Column.name ∧ names = dst.columns.map Column.name then
      some (setTable "ssh_connections_new" { dst with rows := dst.rows ++ src.rows } db)
    else none
  | some _, none => none
  | none, _ => none

/-- `CREATE INDEX IF NOT EXISTS ix_ssh_connections_ssh_key_id ON
ssh_connections(ssh_key_id)`: succeeds silently when the index exists; fails
when the table or the column is missing. -/
def createIdx (db : DB) : Option DB :=
  match findTable "ssh_connections" db with
  | none => none
  | some t =>
    if "ix_ssh_connections_ssh_key_id" ∈ t.indexes then some db
    else if "ssh_key_id" ∈ t.columns.map Column.name then
      some (setTable "ssh_connections"
        { t with indexes := t.indexes ++ ["ix_ssh_connections_ssh_key_id"] } db)
    else none

/-- One column clause, as the source builds it:
`if pk: "    {name} {type} PRIMARY KEY" else " ".join(parts)`. -/
def colDef (c : Column) : String :=
  if c.pk then "    " ++ c.name ++ " " ++ c.type ++ " PRIMARY KEY"
  else
    let parts := ["    " ++ c.name, c.type]
    let parts := if c.notnull then parts ++ ["NOT NULL"] else parts
    let parts :=
      match c.dflt_value with
      | some d => parts ++ ["DEFAULT " ++ d]
      | none => parts
    String.intercalate " " parts

/-- The corrected foreign-key clause appended after the column clauses. -/
def fkClause : String :=
  "    FOREIGN KEY (ssh_key_id) REFERENCES ssh_keys(id) ON DELETE SET NULL"

/-- `new_ddl`, the synthesized `CREATE TABLE` text. -/
def newDdl (cols : List Column) : String :=
  "CREATE TABLE ssh_connections_new (\n" ++
    String.intercalate ",\n" (cols.map colDef ++ [fkClause]) ++ "\n)"

/-- `col_names = ", ".join(row[1] for row in col_rows)`. -/
def colNames (cols : List Column) : String :=
  String.intercalate ", " (cols.map Column.name)

/-- The copy statement's text. -/
def insertSql (cols : List Column) : String :=
  "INSERT INTO ssh_connections_new (" ++ colNames cols ++ ")" ++
    " SELECT " ++ colNames cols ++ " FROM ssh_connections"

/-- A statement submitted to the connection: whether it writes, and its text. -/
structure Sql where
  isWrite : Bool
  text : String
deriving DecidableEq

def pragmaFkSql : Sql := ⟨false, "PRAGMA foreign_key_list(ssh_connections)"⟩

def pragmaTiSql : Sql := ⟨false, "PRAGMA table_info(ssh_connections)"⟩

def dropScratchSql : Sql := ⟨true, "DROP TABLE IF EXISTS ssh_connections_new"⟩

def dropOrigSql : Sql := ⟨true, "DROP TABLE ssh_connections"⟩

def renameSql : Sql := ⟨true, "ALTER TABLE ssh_connections_new RENAME TO ssh_connections"⟩

/-- The index statement's text (whitespace normalized to one line). -/
def createIndexSql : Sql :=
  ⟨true, "CREATE INDEX IF NOT EXISTS ix_ssh_connections_ssh_key_id ON ssh_connections(ssh_key_id)"⟩

/-- The write statements among a trace of executed statements. -/
def writesOf (tr : List Sql) : List Sql := tr.filter (fun s => s.isWrite)

/-- `PRAGMA table_info(ssh_connections)`: column rows, `[]` when the table
is absent (SQLite raises no error for a missing table). -/
def tableInfoRows (db : DB) : List Column :=
  match findTable "ssh_connections" db with
  | some t => t.columns
  | none => []

/-- `PRAGMA foreign_key_list(ssh_connections)`: foreign-key rows, `[]` when
the table is absent. -/
def fkListRows (db : DB) : List ForeignKey :=
  match findTable "ssh_connections" db with
  | some t => t.fks
  | none => []

/-- `has_cascade = any(row[6] == "CASCADE" for row in fk_rows)`. -/
def hasCascadeB (db : DB) : Bool :=
  (fkListRows db).any (fun r => r.on_delete == "CASCADE")

/-- The statements of the `try` block, in execution order, each with its
semantic effect.  `col_rows` is the snapshot read by the first statement;
no earlier statement modifies the database, so reading it from the entry
state is the source's snapshot semantics. -/
def rebuildStmts (db0 : DB) : List (Sql × (DB → Option DB)) :=
  let col_rows := tableInfoRows db0
  [ (pragmaTiSql, fun db => some db),
    (dropScratchSql, fun db => some (dropIfExists "ssh_connections_new" db)),
    (⟨true, newDdl col_rows⟩, createScratch col_rows),
    (⟨true, insertSql col_rows⟩, copyRows (col_rows.map Column.name)),
    (dropOrigSql, dropTable "ssh_connections"),
    (renameSql, renameTable "ssh_connections_new" "ssh_connections"),
    (createIndexSql, createIdx) ]

/-- Run the statements of the `try` block in order.  `sched i = true` means
the statement at global index `i` fails for a runtime reason beyond the
modeled intrinsic ones; a failing statement (spontaneous or intrinsic)
raises, so the run stops with the state unchanged by that statement.  The
trace records every statement submitted, including the failing one. -/
def runTry (sched : Nat → Bool) : Nat → List (Sql × (DB → Option DB)) → DB → List Sql →
    DB × List Sql
  | _, [], db, tr => (db, tr)
  | i, (s, f) :: rest, db, tr =>
    if sched i then (db, tr ++ [s])
    else
      match f db with
      | none => (db, tr ++ [s])
      | some db2 => runTry sched (i + 1) rest db2 (tr ++ [s])

/-- Outcome of one call: final database, executed statements, and whether an
exception escaped to the caller. -/
structure MigResult where
  db : DB
  trace : List Sql
  raised : Bool
deriving DecidableEq

/-- `upgrade(connection)`.  Index 0 of the schedule is the guard PRAGMA,
which sits outside the `try` block, so its spontaneous failure propagates;
indices 1..7 are the statements of the `try` block, whose failures are
caught by the bare `except` and never re-raised. -/
def upgrade (sched : Nat → Bool) (db : DB) : MigResult :=
  if sched 0 then { db := db, trace := [pragmaFkSql], raised := true }
  else if hasCascadeB db then
    let r := runTry sched 1 (rebuildStmts db) db [pragmaFkSql]
    { db := r.1, trace := r.2, raised := false }
  else { db := db, trace := [pragmaFkSql], raised := false }

/-- The schedule with no spontaneous runtime failures. -/
def noFail : Nat → Bool := fun _ => false

/-- `downgrade(connection)`: prints a line and executes no statement. -/
def downgrade (db : DB) : MigResult :=
  { db := db, trace := [], raised := false }

/-- Run a prefix of the `try`-block statements, all succeeding. -/
def applySteps : List (Sql × (DB → Option DB)) → DB → Option DB
  | [], db => some db
  | (_, f) :: rest, db =>
    match f db with
    | none => none
    | some db2 => applySteps rest db2

/-- The scratch table as `CREATE TABLE ssh_connections_new` makes it. -/
def scratchT (t : Table) : Table :=
  { columns := t.columns.map newColumn, fks := [sshFkNew], rows := [], indexes := [] }

/-- The scratch table after the row copy. -/
def copiedT (t : Table) : Table :=
  { columns := t.columns.map newColumn, fks := [sshFkNew], rows := t.rows, indexes := [] }

/-- The rebuilt `ssh_connections` table after rename and index creation. -/
def finalT (t : Table) : Table :=
  { columns := t.columns.map newColumn, fks := [sshFkNew], rows := t.rows,
    indexes := ["ix_ssh_connections_ssh_key_id"] }

theorem findTable_append (n : String) (l1 l2 : DB) :
    findTable n (l1 ++ l2) =
      match findTable n l1 with
      | some t => some t
      | none => findTable n l2 := by
  induction l1 with
  | nil => simp [findTable]
  | cons p rest ih =>
    by_cases h : p.1 = n <;> simp [findTable, h, ih]

theorem findTable_dropKey_self (n : String) (db : DB) :
    findTable n (dropKey n db) = none := by
  induction db with
  | nil => rfl
  | cons p rest ih =>
    obtain ⟨m, t⟩ := p
    by_cases h : m = n <;> simp [findTable, dropKey, h, ih]

theorem findTable_dropKey_ne (m n : String) (db : DB) (h : m ≠ n) :
    findTable m (dropKey n db) = findTable m db := by
  induction db with
  | nil => rfl
  | cons p rest ih =>
    obtain ⟨k, t⟩ := p
    by_cases h1 : k = n
    · have h2 : ¬ n = m := fun hc => h hc.symm
      simp [findTable, dropKey, h1, h2, ih]
    · by_cases h2 : k = m <;> simp [findTable, dropKey, h1, h2, ih, h]

theorem dropKey_dropKey (n : String) (db : DB) :
    dropKey n (dropKey n db) = dropKey n db := by
  induction db with
  | nil => rfl
  | cons p rest ih =>
    obtain ⟨k, t⟩ := p
    by_cases h : k = n <;> simp [dropKey, h, ih]

theorem findTable_setTable_self (n : String) (t : Table) (db : DB) :
    findTable n (setTable n t db) = some t := by
  simp [setTable, findTable_append, findTable_dropKey_self, findTable]

theorem findTable_setTable_ne (m n : String) (t : Table) (db : DB) (h : m ≠ n) :
    findTable m (setTable n t db) = findTable m db := by
  have h2 : ¬ n = m := fun hc => h hc.symm
  rw [setTable, findTable_append, findTable_dropKey_ne m n db h]
  simp only [findTable, h2, if_false]
  cases findTable m db <;> rfl

theorem newColumn_name (c : Column) : (newColumn c).name = c.name := by
  unfold newColumn
  split <;> rfl

theorem map_name_newColumn (cols : List Column) :
    (cols.map newColumn).map Column.name = cols.map Column.name := by
  induction cols with
  | nil => rfl
  | cons c rest ih =>
    simp only [List.map_cons, List.cons.injEq, ih, and_true]
    unfold newColumn
    split <;> rfl

theorem runTry_cons_ok {sched : Nat → Bool} {i : Nat} {s : Sql} {f : DB → Option DB}
    {rest : List (Sql × (DB → Option DB))} {db db2 : DB} {tr : List Sql}
    (hs : sched i = false) (hf : f db = some db2) :
    runTry sched i ((s, f) :: rest) db tr = runTry sched (i + 1) rest db2 (tr ++ [s]) := by
  simp [runTry, hs, hf]

theorem runTry_cons_fail {sched : Nat → Bool} {i : Nat} {s : Sql} {f : DB → Option DB}
    {rest : List (Sql × (DB → Option DB))} {db : DB} {tr : List Sql}
    (hs : sched i = false) (hf : f db = none) :
    runTry sched i ((s, f) :: rest) db tr = (db, tr ++ [s]) := by
  simp [runTry, hs, hf]

/-- When the guard finds a CASCADE, the table exists, and the `ssh_key_id`
column is present, the whole rebuild succeeds: `ssh_connections` is replaced
by `finalT t`, the scratch table is gone, every other table is untouched,
no exception escapes, and the eight statements are executed in order. -/
theorem rebuild_ok (db : DB) (t : Table)
    (hfind : findTable "ssh_connections" db = some t)
    (hc : hasCascadeB db = true)
    (hmem : "ssh_key_id" ∈ t.columns.map Column.name) :
    findTable "ssh_connections" (upgrade noFail db).db = some (finalT t) ∧
    findTable "ssh_connections_new" (upgrade noFail db).db = none ∧
    (∀ m, m ≠ "ssh_connections" → m ≠ "ssh_connections_new" →
      findTable m (upgrade noFail db).db = findTable m db) ∧
    (upgrade noFail db).raised = false ∧
    (upgrade noFail db).trace =
      [pragmaFkSql, pragmaTiSql, dropScratchSql, ⟨true, newDdl t.columns⟩,
       ⟨true, insertSql t.columns⟩, dropOrigSql, renameSql, createIndexSql] := by
  have hne : ("ssh_connections" : String) ≠ "ssh_connections_new" := by decide
  have hne2 : ("ssh_connections_new" : String) ≠ "ssh_connections" := by decide
  have s3 : createScratch t.columns (dropKey "ssh_connections_new" db)
      = some (setTable "ssh_connections_new" (scratchT t) (dropKey "ssh_connections_new" db)) := by
    simp [createScratch, findTable_dropKey_self, hmem, scratchT]
  have s4 : copyRows (t.columns.map Column.name)
        (setTable "ssh_connections_new" (scratchT t) (dropKey "ssh_connections_new" db))
      = some (setTable "ssh_connections_new" (copiedT t)
          (setTable "ssh_connections_new" (scratchT t) (dropKey "ssh_connections_new" db))) := by
    have h1 : findTable "ssh_connections"
        (setTable "ssh_connections_new" (scratchT t) (dropKey "ssh_connections_new" db))
        = some t := by
      rw [findTable_setTable_ne _ _ _ _ hne, findTable_dropKey_ne _ _ _ hne, hfind]
    have h2 : findTable "ssh_connections_new"
        (setTable "ssh_connections_new" (scratchT t) (dropKey "ssh_connections_new" db))
        = some (scratchT t) := findTable_setTable_self _ _ _
    simp only [copyRows]
    rw [h1, h2]
    simp [scratchT, copiedT, map_name_newColumn, newColumn_name]
  have s5 : dropTable "ssh_connections"
        (setTable "ssh_connections_new" (copiedT t)
          (setTable "ssh_connections_new" (scratchT t) (dropKey "ssh_connections_new" db)))
      = some (dropKey "ssh_connections"
          (setTable "ssh_connections_new" (copiedT t)
            (setTable "ssh_connections_new" (scratchT t) (dropKey "ssh_connections_new" db)))) := by
    have h1 : findTable "ssh_connections"
        (setTable "ssh_connections_new" (copiedT t)
          (setTable "ssh_connections_new" (scratchT t) (dropKey "ssh_connections_new" db)))
        = some t := by
      rw [findTable_setTable_ne _ _ _ _ hne, findTable_setTable_ne _ _ _ _ hne,
        findTable_dropKey_ne _ _ _ hne, hfind]
    simp [dropTable, h1]
  have s6 : renameTable "ssh_connections_new" "ssh_connections"
        (dropKey "ssh_connections"
          (setTable "ssh_connections_new" (copiedT t)
            (setTable "ssh_connections_new" (scratchT t) (dropKey "ssh_connections_new" db))))
      = some (setTable "ssh_connections" (copiedT t)
          (dropKey "ssh_connections_new"
            (dropKey "ssh_connections"
              (setTable "ssh_connections_new" (copiedT t)
                (setTable "ssh_connections_new" (scratchT t)
                  (dropKey "ssh_connections_new" db)))))) := by
    have h1 : findTable "ssh_connections_new"
        (dropKey "ssh_connections"
          (setTable "ssh_connections_new" (copiedT t)
            (setTable "ssh_connections_new" (scratchT t) (dropKey "ssh_connections_new" db))))
        = some (copiedT t) := by
      rw [findTable_dropKey_ne _ _ _ hne2, findTable_setTable_self]
    have h2 : findTable "ssh_connections"
        (dropKey "ssh_connections"
          (setTable "ssh_connections_new" (copiedT t)
            (setTable "ssh_connections_new" (scratchT t) (dropKey "ssh_connections_new" db))))
        = none := findTable_dropKey_self _ _
    simp [renameTable, h1, h2]
  have s7 : createIdx
        (setTable "ssh_connections" (copiedT t)
          (dropKey "ssh_connections_new"
            (dropKey "ssh_connections"
              (setTable "ssh_connections_new" (copiedT t)
                (setTable "ssh_connections_new" (scratchT t)
                  (dropKey "ssh_connections_new" db))))))
      = some (setTable "ssh_connections" (finalT t)
          (setTable "ssh_connections" (copiedT t)
            (dropKey "ssh_connections_new"
              (dropKey "ssh_connections"
                (setTable "ssh_connections_new" (copiedT t)
                  (setTable "ssh_connections_new" (scratchT t)
                    (dropKey "ssh_connections_new" db))))))) := by
    have h1 : findTable "ssh_connections"
        (setTable "ssh_connections" (copiedT t)
          (dropKey "ssh_connections_new"
            (dropKey "ssh_connections"
              (setTable "ssh_connections_new" (copiedT t)
                (setTable "ssh_connections_new" (scratchT t)
                  (dropKey "ssh_connections_new" db))))))
        = some (copiedT t) := findTable_setTable_self _ _ _
    have h2 : ∃ a ∈ t.columns, a.name = "ssh_key_id" := by
      simpa [List.mem_map] using hmem
    have h3 : ∃ x ∈ t.columns, (newColumn x).name = "ssh_key_id" := by
      obtain ⟨a, ha, hname⟩ := h2
      exact ⟨a, ha, by rw [newColumn_name, hname]⟩
    simp only [createIdx]
    rw [h1]
    simp [copiedT, finalT, h3]
  have hrun : runTry noFail 1 (rebuildStmts db) db [pragmaFkSql]
      = (setTable "ssh_connections" (finalT t)
          (setTable "ssh_connections" (copiedT t)
            (dropKey "ssh_connections_new"
              (dropKey "ssh_connections"
                (setTable "ssh_connections_new" (copiedT t)
                  (setTable "ssh_connections_new" (scratchT t)
                    (dropKey "ssh_connections_new" db)))))),
         [pragmaFkSql, pragmaTiSql, dropScratchSql, ⟨true, newDdl t.columns⟩,
          ⟨true, insertSql t.columns⟩, dropOrigSql, renameSql, createIndexSql]) := by
    have htir : tableInfoRows db = t.columns := by
      simp [tableInfoRows, hfind]
    simp only [runTry, noFail, dropIfExists, Bool.false_eq_true, if_false, htir,
      s3, s4, s5, s6, s7]
    rfl
  have hup : (upgrade noFail db) =
      { db := (runTry noFail 1 (rebuildStmts db) db [pragmaFkSql]).1,
        trace := (runTry noFail 1 (rebuildStmts db) db [pragmaFkSql]).2,
        raised := false } := by
    simp [upgrade, noFail, hc]
  rw [hup, hrun]
  refine ⟨findTable_setTable_self _ _ _, ?_, ?_, rfl, rfl⟩
  · rw [findTable_setTable_ne _ _ _ _ hne2, findTable_setTable_ne _ _ _ _ hne2,
      findTable_dropKey_self]
  · intro m hm1 hm2
    rw [findTable_setTable_ne _ _ _ _ hm1, findTable_setTable_ne _ _ _ _ hm1,
      findTable_dropKey_ne _ _ _ hm2, findTable_dropKey_ne _ _ _ hm1,
      findTable_setTable_ne _ _ _ _ hm2, findTable_setTable_ne _ _ _ _ hm2,
      findTable_dropKey_ne _ _ _ hm2]

/-- When the guard sees no CASCADE, `upgrade` returns at once: only the guard
PRAGMA executes, the state is unchanged, no exception escapes. -/
theorem skip_eq (sched : Nat → Bool) (db : DB)
    (h0 : sched 0 = false) (hc : hasCascadeB db = false) :
    upgrade sched db = { db := db, trace := [pragmaFkSql], raised := false } := by
  simp [upgrade, h0, hc]

/-- `hasCascadeB` read through the catalog. -/
theorem hasCascadeB_of_find (db : DB) (t : Table)
    (hfind : findTable "ssh_connections" db = some t) :
    hasCascadeB db = t.fks.any (fun r => r.on_delete == "CASCADE") := by
  simp [hasCascadeB, fkListRows, hfind]

theorem hasCascadeB_of_absent (db : DB)
    (hfind : findTable "ssh_connections" db = none) :
    hasCascadeB db = false := by
  simp [hasCascadeB, fkListRows, hfind]

/-- When the guard finds a CASCADE but the `ssh_key_id` column is missing,
the `CREATE TABLE` statement fails (unknown column in the foreign-key
clause); the exception is caught, and the state is the one left by the
already-executed `DROP TABLE IF EXISTS ssh_connections_new`. -/
theorem rebuild_fail (db : DB) (t : Table)
    (hfind : findTable "ssh_connections" db = some t)
    (hc : hasCascadeB db = true)
    (hmem : "ssh_key_id" ∉ t.columns.map Column.name) :
    (upgrade noFail db).db = dropKey "ssh_connections_new" db ∧
    (upgrade noFail db).raised = false ∧
    (upgrade noFail db).trace =
      [pragmaFkSql, pragmaTiSql, dropScratchSql, ⟨true, newDdl t.columns⟩] := by
  have htir : tableInfoRows db = t.columns := by
    simp [tableInfoRows, hfind]
  have s3 : createScratch t.columns (dropKey "ssh_connections_new" db) = none := by
    simp [createScratch, findTable_dropKey_self, hmem]
  have hrun : runTry noFail 1 (rebuildStmts db) db [pragmaFkSql]
      = (dropKey "ssh_connections_new" db,
         [pragmaFkSql, pragmaTiSql, dropScratchSql, ⟨true, newDdl t.columns⟩]) := by
    simp only [runTry, noFail, dropIfExists, Bool.false_eq_true, if_false, htir, s3]
    rfl
  have hup : (upgrade noFail db) =
      { db := (runTry noFail 1 (rebuildStmts db) db [pragmaFkSql]).1,
        trace := (runTry noFail 1 (rebuildStmts db) db [pragmaFkSql]).2,
        raised := false } := by
    simp [upgrade, noFail, hc]
  rw [hup, hrun]
  exact ⟨rfl, rfl, rfl⟩

/-- Everything already in the trace stays in the trace. -/
theorem runTry_trace_mono (sched : Nat → Bool) (steps : List (Sql × (DB → Option DB))) :
    ∀ (i : Nat) (db : DB) (tr : List Sql) (s : Sql),
      s ∈ tr → s ∈ (runTry sched i steps db tr).2 := by
  induction steps with
  | nil =>
    intro i db tr s hs
    simpa [runTry] using hs
  | cons p rest ih =>
    intro i db tr s hs
    obtain ⟨q, f⟩ := p
    by_cases h0 : sched i
    · simp [runTry, h0, List.mem_append, hs]
    · simp only [runTry, h0, Bool.false_eq_true, if_false]
      cases hf : f db with
      | none => simp [List.mem_append, hs]
      | some db2 => exact ih (i + 1) db2 (tr ++ [q]) s (List.mem_append_left _ hs)

/-- Under the no-spontaneous-failure schedule, every rebuild (succeeding or
not past the `CREATE TABLE`) executes the write statement
`DROP TABLE IF EXISTS ssh_connections_new`. -/
theorem rebuild_executes_drop (db : DB) (hc : hasCascadeB db = true) :
    dropScratchSql ∈ (upgrade noFail db).trace := by
  have hup : (upgrade noFail db) =
      { db := (runTry noFail 1 (rebuildStmts db) db [pragmaFkSql]).1,
        trace := (runTry noFail 1 (rebuildStmts db) db [pragmaFkSql]).2,
        raised := false } := by
    simp [upgrade, noFail, hc]
  rw [hup]
  show dropScratchSql ∈ (runTry noFail 1 (rebuildStmts db) db [pragmaFkSql]).2
  have h1 : runTry noFail 1 (rebuildStmts db) db [pragmaFkSql]
      = runTry noFail 3 ((rebuildStmts db).drop 2) (dropKey "ssh_connections_new" db)
          [pragmaFkSql, pragmaTiSql, dropScratchSql] := by
    simp only [rebuildStmts, runTry, noFail, dropIfExists, Bool.false_eq_true, if_false]
    rfl
  rw [h1]
  exact runTry_trace_mono noFail _ 3 _ _ dropScratchSql (by simp)

/-- The caught `try` block leaves the database in the state produced by a
prefix of successfully executed sub-steps. -/
theorem runTry_state_prefix (sched : Nat → Bool) (steps : List (Sql × (DB → Option DB))) :
    ∀ (i : Nat) (db : DB) (tr : List Sql),
      ∃ k, k ≤ steps.length ∧
        applySteps (steps.take k) db = some (runTry sched i steps db tr).1 := by
  induction steps with
  | nil =>
    intro i db tr
    exact ⟨0, Nat.le_refl 0, rfl⟩
  | cons p rest ih =>
    intro i db tr
    obtain ⟨q, f⟩ := p
    by_cases h0 : sched i
    · exact ⟨0, Nat.zero_le _, by simp [applySteps, runTry, h0]⟩
    · cases hf : f db with
      | none =>
        refine ⟨0, Nat.zero_le _, ?_⟩
        simp [applySteps, runTry, h0, hf]
      | some db2 =>
        obtain ⟨k, hk, happ⟩ := ih (i + 1) db2 (tr ++ [q])
        refine ⟨k + 1, Nat.succ_le_succ hk, ?_⟩
        simp only [List.take_succ_cons, applySteps, hf, happ]
        simp [runTry, h0, hf]

/-- Modelled from the spec's words (§4.3 step 1): for each column emit
`name type`, then `NOT NULL` if set, then `DEFAULT <defaultExpr>` if
present, then `PRIMARY KEY` if `isPrimaryKey`.  Used only to compare the
spec's emission rule against the source's `colDef`. -/
def claimColDef (c : Column) : String :=
  let s := "    " ++ c.name ++ " " ++ c.type
  let s := if c.notnull then s ++ " NOT NULL" else s
  let s :=
    match c.dflt_value with
    | some d => s ++ " DEFAULT " ++ d
    | none => s
  if c.pk then s ++ " PRIMARY KEY" else s

/-! Concrete fixtures used by counterexamples and witnesses. -/

/-- `id INTEGER PRIMARY KEY` as `PRAGMA table_info` reports it. -/
def colId : Column := ⟨"id", "INTEGER", false, none, true⟩

/-- `id INTEGER NOT NULL PRIMARY KEY` as `PRAGMA table_info` reports it. -/
def colIdNotNull : Column := ⟨"id", "INTEGER", true, none, true⟩

def colSshKeyId : Column := ⟨"ssh_key_id", "INTEGER", false, none, false⟩

def colHost : Column := ⟨"host", "TEXT", true, none, false⟩

def colUserId : Column := ⟨"user_id", "INTEGER", false, none, false⟩

def fkCascade : ForeignKey := ⟨"ssh_keys", "ssh_key_id", "id", "NO ACTION", "CASCADE"⟩

def fkNoAction : ForeignKey := ⟨"ssh_keys", "ssh_key_id", "id", "NO ACTION", "NO ACTION"⟩

def fkRestrict : ForeignKey := ⟨"ssh_keys", "ssh_key_id", "id", "NO ACTION", "RESTRICT"⟩

def fkUsers : ForeignKey := ⟨"users", "user_id", "id", "NO ACTION", "NO ACTION"⟩

/-- A `ssh_connections` table still carrying the CASCADE foreign key. -/
def tCascade : Table :=
  { columns := [colId, colSshKeyId, colHost], fks := [fkCascade],
    rows := [[some "1", some "5", some "h1"]],
    indexes := ["ix_ssh_connections_ssh_key_id"] }

def dbCascade : DB := [("ssh_connections", tCascade)]

/-- A table whose `ssh_key_id` foreign key has on-delete `NO ACTION`. -/
def tNoAction : Table :=
  { columns := [colId, colSshKeyId], fks := [fkNoAction], rows := [], indexes := [] }

def dbNoAction : DB := [("ssh_connections", tNoAction)]

/-- A table whose `ssh_key_id` foreign key has on-delete `RESTRICT`. -/
def tRestrict : Table :=
  { columns := [colId, colSshKeyId], fks := [fkRestrict], rows := [], indexes := [] }

def dbRestrict : DB := [("ssh_connections", tRestrict)]

/-- A table carrying a second, unrelated foreign key besides the CASCADE one. -/
def tTwoFks : Table :=
  { columns := [colId, colSshKeyId, colUserId], fks := [fkUsers, fkCascade],
    rows := [], indexes := [] }

def dbTwoFks : DB := [("ssh_connections", tTwoFks)]

/-- A table whose primary-key column is declared `NOT NULL`. -/
def tPkNotNull : Table :=
  { columns := [colIdNotNull, colSshKeyId], fks := [fkCascade],
    rows := [[some "1", some "5"]], indexes := [] }

def dbPkNotNull : DB := [("ssh_connections", tPkNotNull)]

/-- A database with a stale scratch table left by an interrupted run. -/
def dbStale : DB :=
  [("ssh_connections_new", { columns := [colId], fks := [], rows := [], indexes := [] }),
   ("ssh_connections", tCascade)]

/-- Schedule making the copy statement (global index 4) fail spontaneously. -/
def schedFail : Nat → Bool := fun i => i == 4

/-- C1, as stated, is false: with a pre-existing `ssh_key_id` on-delete
action of `NO ACTION` (one of the listed actions) the guard finds no
CASCADE, the migration skips, and the action stays `NO ACTION`, not
`SET NULL`. -/
theorem C1_counterexample :
    fkNoAction.from_col = "ssh_key_id" ∧
    fkNoAction.on_delete ∈ ["CASCADE", "NO ACTION", "SET DEFAULT", "RESTRICT"] ∧
    (findTable "ssh_connections" (upgrade noFail dbNoAction).db).map Table.fks
      = some [fkNoAction] ∧
    fkNoAction.on_delete ≠ "SET NULL" := by decide

/-- C1 amended: if some foreign key of `ssh_connections` has on-delete
CASCADE (the code's guard) and the `ssh_key_id` column exists, then after
`upgrade` the table's foreign keys are exactly the single
`ssh_key_id → ssh_keys(id) ON DELETE SET NULL` key (so the target action
becomes SET NULL but every other constraint is dropped, not kept
unchanged); if no foreign key has CASCADE — in particular for pre-existing
NO ACTION, SET DEFAULT, or RESTRICT on `ssh_key_id` — the database is
unchanged. -/
theorem C1_fix (db : DB) (t : Table)
    (hfind : findTable "ssh_connections" db = some t)
    (hmem : "ssh_key_id" ∈ t.columns.map Column.name) :
    (t.fks.any (fun r => r.on_delete == "CASCADE") = true →
      (findTable "ssh_connections" (upgrade noFail db).db).map Table.fks = some [sshFkNew]) ∧
    (t.fks.any (fun r => r.on_delete == "CASCADE") = false →
      (upgrade noFail db).db = db) := by
  constructor
  · intro hany
    have hc : hasCascadeB db = true := by rw [hasCascadeB_of_find db t hfind, hany]
    have h := rebuild_ok db t hfind hc hmem
    rw [h.1]
    rfl
  · intro hnone
    have hc : hasCascadeB db = false := by rw [hasCascadeB_of_find db t hfind, hnone]
    rw [skip_eq noFail db rfl hc]

/-- Witness for C1_fix at a concrete CASCADE-carrying table. -/
theorem C1_fix_witness :
    findTable "ssh_connections" dbCascade = some tCascade ∧
    "ssh_key_id" ∈ tCascade.columns.map Column.name ∧
    ((tCascade.fks.any (fun r => r.on_delete == "CASCADE") = true →
      (findTable "ssh_connections" (upgrade noFail dbCascade).db).map Table.fks
        = some [sshFkNew]) ∧
     (tCascade.fks.any (fun r => r.on_delete == "CASCADE") = false →
      (upgrade noFail dbCascade).db = dbCascade)) :=
  ⟨by decide, by decide, C1_fix dbCascade tCascade (by decide) (by decide)⟩

set_option maxRecDepth 8192 in
/-- C2, as stated, is false: for a table with a second foreign key
(`user_id → users(id)`), the synthesized DDL contains no clause for it
(only the rewritten `ssh_key_id` clause is emitted) and the rebuilt table
has lost the constraint. -/
theorem C2_counterexample :
    fkUsers ∈ tTwoFks.fks ∧
    fkUsers.from_col ≠ "ssh_key_id" ∧
    newDdl tTwoFks.columns =
      "CREATE TABLE ssh_connections_new (\n    id INTEGER PRIMARY KEY,\n    ssh_key_id INTEGER,\n    user_id INTEGER,\n    FOREIGN KEY (ssh_key_id) REFERENCES ssh_keys(id) ON DELETE SET NULL\n)" ∧
    (findTable "ssh_connections" (upgrade noFail dbTwoFks).db).map Table.fks
      = some [sshFkNew] ∧
    fkUsers ∉ [sshFkNew] := by decide

/-- C2 amended: the synthesized replacement DDL carries exactly one
foreign-key clause — the corrected `ssh_key_id` one — regardless of the
table's other constraints, so after a successful rebuild every unrelated
foreign-key constraint has been dropped from `ssh_connections`. -/
theorem C2_fix (db : DB) (t : Table)
    (hfind : findTable "ssh_connections" db = some t)
    (hany : t.fks.any (fun r => r.on_delete == "CASCADE") = true)
    (hmem : "ssh_key_id" ∈ t.columns.map Column.name) :
    newDdl t.columns =
      "CREATE TABLE ssh_connections_new (\n" ++
        String.intercalate ",\n" (t.columns.map colDef ++ [fkClause]) ++ "\n)" ∧
    (findTable "ssh_connections" (upgrade noFail db).db).map Table.fks = some [sshFkNew] := by
  have hc : hasCascadeB db = true := by rw [hasCascadeB_of_find db t hfind, hany]
  have h := rebuild_ok db t hfind hc hmem
  refine ⟨rfl, ?_⟩
  rw [h.1]
  rfl

/-- Witness for C2_fix at the two-foreign-key table. -/
theorem C2_fix_witness :
    findTable "ssh_connections" dbTwoFks = some tTwoFks ∧
    tTwoFks.fks.any (fun r => r.on_delete == "CASCADE") = true ∧
    "ssh_key_id" ∈ tTwoFks.columns.map Column.name ∧
    (newDdl tTwoFks.columns =
      "CREATE TABLE ssh_connections_new (\n" ++
        String.intercalate ",\n" (tTwoFks.columns.map colDef ++ [fkClause]) ++ "\n)" ∧
     (findTable "ssh_connections" (upgrade noFail dbTwoFks).db).map Table.fks
       = some [sshFkNew]) :=
  ⟨by decide, by decide, by decide, C2_fix dbTwoFks tTwoFks (by decide) (by decide) (by decide)⟩

/-- C3, as stated, is false: for a `ssh_key_id` foreign key with on-delete
RESTRICT — present and not SET NULL, so the claim demands a rebuild — the
code's guard (which looks only for CASCADE) takes the skip path: no write
statement executes and the state is unchanged. -/
theorem C3_counterexample :
    (∃ fk ∈ tRestrict.fks, fk.from_col = "ssh_key_id" ∧ fk.on_delete ≠ "SET NULL") ∧
    findTable "ssh_connections" dbRestrict = some tRestrict ∧
    writesOf (upgrade noFail dbRestrict).trace = [] ∧
    (upgrade noFail dbRestrict).db = dbRestrict := by decide

/-- C3 amended: `upgrade` performs the skip path — no write statement, no
state change — exactly when no foreign-key row of `ssh_connections` has
on-delete CASCADE (which includes the already-SET NULL case and the
missing-table/missing-constraint case, but also RESTRICT, NO ACTION and
SET DEFAULT constraints the original claim said would be rebuilt). -/
theorem C3_fix (db : DB) :
    (writesOf (upgrade noFail db).trace = [] ∧ (upgrade noFail db).db = db) ↔
      hasCascadeB db = false := by
  constructor
  · intro h
    by_contra hc'
    have hc : hasCascadeB db = true := by
      revert hc'
      cases hasCascadeB db <;> simp
    have hdrop := rebuild_executes_drop db hc
    have hw : dropScratchSql ∈ writesOf (upgrade noFail db).trace := by
      rw [writesOf, List.mem_filter]
      exact ⟨hdrop, rfl⟩
    rw [h.1] at hw
    exact absurd hw (List.not_mem_nil _)
  · intro hc
    rw [skip_eq noFail db rfl hc]
    exact ⟨rfl, rfl⟩

theorem newColumn_eq_self (c : Column)
    (h : c.pk = true → c.notnull = false ∧ c.dflt_value = none) :
    newColumn c = c := by
  obtain ⟨nm, ty, nn, dv, pk⟩ := c
  unfold newColumn
  by_cases hpk : pk = true
  · obtain ⟨h1, h2⟩ := h hpk
    simp_all
  · simp [hpk]

theorem map_newColumn_eq_self (cols : List Column)
    (h : ∀ c ∈ cols, c.pk = true → c.notnull = false ∧ c.dflt_value = none) :
    cols.map newColumn = cols := by
  induction cols with
  | nil => rfl
  | cons c rest ih =>
    rw [List.map_cons, newColumn_eq_self c (h c (List.mem_cons_self c rest)),
      ih (fun d hd => h d (List.mem_cons_of_mem c hd))]

/-- C4, as stated, is false: for a table whose primary-key column was
declared `NOT NULL`, the rebuild completes successfully (the foreign key
becomes SET NULL) but the synthesized DDL dropped the `NOT NULL` on the
primary-key column, so nullability is not identical to before. -/
theorem C4_counterexample :
    (findTable "ssh_connections" (upgrade noFail dbPkNotNull).db).map Table.fks
      = some [sshFkNew] ∧
    (findTable "ssh_connections" dbPkNotNull).map Table.columns
      = some [colIdNotNull, colSshKeyId] ∧
    (findTable "ssh_connections" (upgrade noFail dbPkNotNull).db).map Table.columns
      = some [colId, colSshKeyId] ∧
    colIdNotNull.notnull = true ∧ colId.notnull = false := by decide

/-- C4 amended: provided every primary-key column of the table is declared
without `NOT NULL` and without a default (the code emits a primary-key
column as only `name type PRIMARY KEY`), a completed rebuild leaves
`ssh_connections` with the identical column list (set, order, types,
nullability, defaults), the single `ssh_key_id → ssh_keys(id) ON DELETE
SET NULL` foreign key, the identical rows, and no surviving
`ssh_connections_new` scratch table. -/
theorem C4_fix (db : DB) (t : Table)
    (hfind : findTable "ssh_connections" db = some t)
    (hc : hasCascadeB db = true)
    (hmem : "ssh_key_id" ∈ t.columns.map Column.name)
    (hpk : ∀ c ∈ t.columns, c.pk = true → c.notnull = false ∧ c.dflt_value = none) :
    findTable "ssh_connections" (upgrade noFail db).db
      = some { columns := t.columns, fks := [sshFkNew], rows := t.rows,
               indexes := ["ix_ssh_connections_ssh_key_id"] } ∧
    findTable "ssh_connections_new" (upgrade noFail db).db = none ∧
    (upgrade noFail db).raised = false := by
  have h := rebuild_ok db t hfind hc hmem
  refine ⟨?_, h.2.1, h.2.2.2.1⟩
  rw [h.1]
  simp [finalT, map_newColumn_eq_self t.columns hpk]

/-- Witness for C4_fix at a concrete CASCADE-carrying table. -/
theorem C4_fix_witness :
    findTable "ssh_connections" dbCascade = some tCascade ∧
    hasCascadeB dbCascade = true ∧
    "ssh_key_id" ∈ tCascade.columns.map Column.name ∧
    (∀ c ∈ tCascade.columns, c.pk = true → c.notnull = false ∧ c.dflt_value = none) ∧
    (findTable "ssh_connections" (upgrade noFail dbCascade).db
       = some { columns := tCascade.columns, fks := [sshFkNew], rows := tCascade.rows,
                indexes := ["ix_ssh_connections_ssh_key_id"] } ∧
     findTable "ssh_connections_new" (upgrade noFail dbCascade).db = none ∧
     (upgrade noFail dbCascade).raised = false) :=
  ⟨by decide, by decide, by decide, by decide,
   C4_fix dbCascade tCascade (by decide) (by decide) (by decide) (by decide)⟩

/-- C5, as stated, is false: for a primary-key column declared `NOT NULL`,
the source emits `id INTEGER PRIMARY KEY`, not the claimed
`id INTEGER NOT NULL PRIMARY KEY`. -/
theorem C5_counterexample :
    colIdNotNull.pk = true ∧ colIdNotNull.notnull = true ∧
    colDef colIdNotNull = "    id INTEGER PRIMARY KEY" ∧
    claimColDef colIdNotNull = "    id INTEGER NOT NULL PRIMARY KEY" ∧
    colDef colIdNotNull ≠ claimColDef colIdNotNull := by decide

/-- C5 amended: the claimed emission pattern (`name type`, then `NOT NULL`
if set, then `DEFAULT expr` if present, then `PRIMARY KEY` if primary key)
matches the source exactly for non-primary-key columns; for the
primary-key column the source emits only `name type PRIMARY KEY`, so the
two agree precisely when the primary-key column carries neither `NOT NULL`
nor a default. -/
theorem C5_fix (c : Column)
    (h : c.pk = false ∨ (c.notnull = false ∧ c.dflt_value = none)) :
    colDef c = claimColDef c := by
  obtain ⟨nm, ty, nn, dv, pk⟩ := c
  have hx : ∀ d : String, " " ++ ("DEFAULT " ++ d) = " DEFAULT " ++ d := fun d => by
    rw [← String.append_assoc]
    rfl
  have hy : ∀ d : String, " NOT NULL " ++ ("DEFAULT " ++ d) = " NOT NULL DEFAULT " ++ d :=
    fun d => by
      rw [← String.append_assoc]
      rfl
  rcases h with h | ⟨h1, h2⟩
  · have hpk : pk = false := h
    subst hpk
    cases nn <;> rcases dv with _ | d <;>
      simp [colDef, claimColDef, String.intercalate, String.intercalate.go,
        String.append_assoc, hx, hy]
  · have h1b : nn = false := h1
    have h2b : dv = none := h2
    subst h1b
    subst h2b
    cases pk <;>
      simp [colDef, claimColDef, String.intercalate, String.intercalate.go,
        String.append_assoc]

/-- Witness for C5_fix at a concrete non-primary-key column with both a
`NOT NULL` flag and a default. -/
theorem C5_fix_witness :
    (colHost.pk = false ∨ (colHost.notnull = false ∧ colHost.dflt_value = none)) ∧
    colDef colHost = claimColDef colHost :=
  ⟨Or.inl (by decide), C5_fix colHost (Or.inl (by decide))⟩

/-- C6 (confirmed): for every database state, a second run of `upgrade`
leaves the state exactly where the first run left it (hence the same
`ssh_connections` schema as running once), and the second run raises no
error. -/
theorem C6_idempotent (db : DB) :
    (upgrade noFail ((upgrade noFail db).db)).db = (upgrade noFail db).db ∧
    (upgrade noFail ((upgrade noFail db).db)).raised = false := by
  by_cases hc : hasCascadeB db = true
  · cases hfd : findTable "ssh_connections" db with
    | none =>
      rw [hasCascadeB_of_absent db hfd] at hc
      exact absurd hc (by simp)
    | some t =>
      by_cases hmem : "ssh_key_id" ∈ t.columns.map Column.name
      · have h := rebuild_ok db t hfd hc hmem
        have hc2 : hasCascadeB (upgrade noFail db).db = false := by
          rw [hasCascadeB_of_find _ _ h.1]
          rfl
        rw [skip_eq noFail _ rfl hc2]
        exact ⟨rfl, rfl⟩
      · have hne : ("ssh_connections" : String) ≠ "ssh_connections_new" := by decide
        have h := rebuild_fail db t hfd hc hmem
        have hfd2 : findTable "ssh_connections" (dropKey "ssh_connections_new" db)
            = some t := by
          rw [findTable_dropKey_ne _ _ _ hne, hfd]
        have hc2 : hasCascadeB (dropKey "ssh_connections_new" db) = true := by
          rw [hasCascadeB_of_find _ _ hfd2]
          rw [hasCascadeB_of_find _ _ hfd] at hc
          exact hc
        have h2 := rebuild_fail (dropKey "ssh_connections_new" db) t hfd2 hc2 hmem
        refine ⟨?_, ?_⟩
        · rw [h.1, h2.1, dropKey_dropKey]
        · rw [h.1]
          exact h2.2.1
  · have hcf : hasCascadeB db = false := by
      revert hc
      cases hasCascadeB db <;> simp
    rw [skip_eq noFail db rfl hcf]
    show (upgrade noFail db).db = db ∧ (upgrade noFail db).raised = false
    rw [skip_eq noFail db rfl hcf]
    exact ⟨rfl, rfl⟩

/-- C7, as stated, is false: when `ssh_connections` does not exist, the
PRAGMA returns no rows, the guard finds no CASCADE, and `upgrade` returns
through the skip path — no error of any kind is surfaced to the caller and
nothing is written. -/
theorem C7_counterexample :
    findTable "ssh_connections" ([] : DB) = none ∧
    (upgrade noFail ([] : DB)).raised = false ∧
    (upgrade noFail ([] : DB)).db = [] ∧
    writesOf (upgrade noFail ([] : DB)).trace = [] := by decide

/-- C7 amended: when the table named `ssh_connections` does not exist,
`upgrade` treats the state as already satisfied and returns successfully
with no error and no write — it does not fail with a SchemaNotFound-style
error. -/
theorem C7_fix (db : DB) (h : findTable "ssh_connections" db = none) :
    upgrade noFail db = { db := db, trace := [pragmaFkSql], raised := false } :=
  skip_eq noFail db rfl (hasCascadeB_of_absent db h)

/-- Witness for C7_fix at the empty database. -/
theorem C7_fix_witness :
    findTable "ssh_connections" ([] : DB) = none ∧
    upgrade noFail ([] : DB) = { db := [], trace := [pragmaFkSql], raised := false } :=
  ⟨rfl, C7_fix [] rfl⟩

/-- C8 (confirmed): whatever statement of the `try` block fails — under any
spontaneous-failure schedule, on top of the intrinsic failure conditions —
`upgrade` never lets the exception escape, and the returned database state
is the one produced by the prefix of rebuild sub-steps that ran
successfully (the failing statement itself changes nothing). -/
theorem C8_caught (sched : Nat → Bool) (db : DB)
    (h0 : sched 0 = false) (hc : hasCascadeB db = true) :
    (upgrade sched db).raised = false ∧
    ∃ k, k ≤ (rebuildStmts db).length ∧
      applySteps ((rebuildStmts db).take k) db = some (upgrade sched db).db := by
  have hup : upgrade sched db =
      { db := (runTry sched 1 (rebuildStmts db) db [pragmaFkSql]).1,
        trace := (runTry sched 1 (rebuildStmts db) db [pragmaFkSql]).2,
        raised := false } := by
    simp [upgrade, h0, hc]
  rw [hup]
  exact ⟨rfl, runTry_state_prefix sched (rebuildStmts db) 1 db [pragmaFkSql]⟩

/-- Witness for C8_caught: the copy statement fails spontaneously. -/
theorem C8_caught_witness :
    schedFail 0 = false ∧ hasCascadeB dbCascade = true ∧
    ((upgrade schedFail dbCascade).raised = false ∧
     ∃ k, k ≤ (rebuildStmts dbCascade).length ∧
       applySteps ((rebuildStmts dbCascade).take k) dbCascade
         = some (upgrade schedFail dbCascade).db) :=
  ⟨by decide, by decide, C8_caught schedFail dbCascade (by decide) (by decide)⟩

/-- C9 (confirmed): even with a stale `ssh_connections_new` scratch table
left by an interrupted run, a fresh `upgrade` succeeds — the stale table is
dropped before creation, the rebuild completes, and no scratch table
survives. -/
theorem C9_recovery (db : DB) (t s : Table)
    (hfind : findTable "ssh_connections" db = some t)
    (_hstale : findTable "ssh_connections_new" db = some s)
    (hc : hasCascadeB db = true)
    (hmem : "ssh_key_id" ∈ t.columns.map Column.name) :
    findTable "ssh_connections" (upgrade noFail db).db = some (finalT t) ∧
    findTable "ssh_connections_new" (upgrade noFail db).db = none ∧
    (upgrade noFail db).raised = false := by
  have h := rebuild_ok db t hfind hc hmem
  exact ⟨h.1, h.2.1, h.2.2.2.1⟩

/-- Witness for C9_recovery at a database carrying a stale scratch table. -/
theorem C9_recovery_witness :
    findTable "ssh_connections" dbStale = some tCascade ∧
    findTable "ssh_connections_new" dbStale
      = some { columns := [colId], fks := [], rows := [], indexes := [] } ∧
    hasCascadeB dbStale = true ∧
    "ssh_key_id" ∈ tCascade.columns.map Column.name ∧
    (findTable "ssh_connections" (upgrade noFail dbStale).db = some (finalT tCascade) ∧
     findTable "ssh_connections_new" (upgrade noFail dbStale).db = none ∧
     (upgrade noFail dbStale).raised = false) :=
  ⟨by decide, by decide, by decide, by decide,
   C9_recovery dbStale tCascade { columns := [colId], fks := [], rows := [], indexes := [] }
     (by decide) (by decide) (by decide) (by decide)⟩

/-- C10 (confirmed): `downgrade` executes no statement and leaves the
entire database state — in particular every foreign-key action of
`ssh_connections` — unchanged, raising nothing. -/
theorem C10_no_side_effects (db : DB) :
    (downgrade db).db = db ∧ (downgrade db).trace = [] ∧
    (downgrade db).raised = false ∧
    findTable "ssh_connections" (downgrade db).db = findTable "ssh_connections" db :=
  ⟨rfl, rfl, rfl, rfl⟩

end Migration048
